import Mathlib

/-!
# Verification of the hardening-workflows report scripts

A shallow embedding of the Node.js report-formatting scripts of the
`hardening-workflows` repository:

* the top-level enhanced PR comment script (namespace `Hardening`:
  `parseSASTReport`, `parseContainerReport`, `getRiskLevel`,
  `generateActionItems`, `generateEnhancedSASTComment`, ...);
* `.github/scripts/enhanced-pr-comment.js` (namespace `Hardening.EPC`);
* `.github/scripts/security-badges.js` (namespace `Hardening.Badges`);
* the inline risk computation of
  `.github/scripts/advanced-pr-enhancements.js` (namespace `Hardening.Advanced`).

JavaScript numbers are modelled as exact integers (`Int`); every count that
occurs in the scripts is far below 2^53, where this model agrees with IEEE
doubles.  The single floating-point division of `generateProgressBar` is
modelled over `ℚ`; all inputs used in theorems about it keep the computation
on exactly representable values.  Impure calls (`new Date().toLocaleString()`)
are modelled as explicit extra string inputs.  All functions are total Lean
definitions, which reflects that the JavaScript originals can only fail where
the model returns `none` (`String.prototype.repeat` with a negative count).
-/

namespace Hardening

/-- Whitespace recognised by JavaScript `String.prototype.trim` and
`parseInt` (the ASCII white-space characters; the exotic Unicode space
characters never occur in the reports). -/
def jsSpace (c : Char) : Bool :=
  c = ' ' || c = '\t' || c = '\n' || c = '\r' || c = '\x0b' || c = '\x0c'

/-- JavaScript `String.prototype.trim` on a list of characters. -/
def trimList (l : List Char) : List Char :=
  ((l.dropWhile jsSpace).reverse.dropWhile jsSpace).reverse

/-- Numeric value of a run of decimal digits, most significant first. -/
def decValue (l : List Char) : Nat :=
  l.foldl (fun n c => n * 10 + (c.toNat - 48)) 0

/-- Hexadecimal digit? (as accepted by `parseInt` with radix 16). -/
def isHexDig (c : Char) : Bool :=
  c.isDigit || ('a' ≤ c && c ≤ 'f') || ('A' ≤ c && c ≤ 'F')

/-- Value of one hexadecimal digit. -/
def hexDigVal (c : Char) : Nat :=
  if c.isDigit then c.toNat - 48
  else if 'a' ≤ c && c ≤ 'f' then c.toNat - 87
  else c.toNat - 55

/-- Numeric value of a run of hexadecimal digits. -/
def hexValue (l : List Char) : Nat :=
  l.foldl (fun n c => n * 16 + hexDigVal c) 0

/-- JavaScript `parseInt(s)` with the radix inferred from the string
(`0x`/`0X` means 16, otherwise 10): skip leading whitespace, read an
optional sign, then the longest run of digits; `none` models `NaN`.
Exact integer semantics; the float rounding JavaScript applies to digit
runs above 2^53 is not modelled. -/
def jsParseInt (l : List Char) : Option Int :=
  let l₁ := l.dropWhile jsSpace
  let sl : Int × List Char :=
    match l₁ with
    | '-' :: t => (-1, t)
    | '+' :: t => (1, t)
    | _ => (1, l₁)
  match sl with
  | (sign, l₂) =>
    match l₂ with
    | '0' :: c :: t =>
      if c = 'x' || c = 'X' then
        let ds := t.takeWhile isHexDig
        if ds = [] then none else some (sign * (hexValue ds : Int))
      else
        some (sign * (decValue (('0' :: c :: t).takeWhile Char.isDigit) : Int))
    | _ =>
      let ds := l₂.takeWhile Char.isDigit
      if ds = [] then none else some (sign * (decValue ds : Int))

/-- `parseInt(x) || 0` as written throughout the scripts: `NaN` collapses
to `0`, every other result is kept (`0 || 0` is again `0`). -/
def parseIntOr0 (l : List Char) : Int := (jsParseInt l).getD 0

/-- First index (if any) at which `pat` occurs as a contiguous substring
of `text`. -/
def findSubstr (pat : List Char) : List Char → Option Nat
  | [] => if pat.isPrefixOf ([] : List Char) then some 0 else none
  | c :: t =>
    if pat.isPrefixOf (c :: t) then some 0
    else (findSubstr pat t).map (· + 1)

/-- JavaScript `String.prototype.includes`. -/
def containsSub (pat text : List Char) : Bool := (findSubstr pat text).isSome

/-- `getRiskLevel` of the top-level enhanced PR comment script. -/
def getRiskLevel (critical high : Int) : String :=
  if critical > 0 then "CRITICAL"
  else if high > 5 then "HIGH"
  else if high > 0 then "MODERATE"
  else "LOW"

end Hardening

namespace Hardening.EPC

/-- `getRiskLevel` of `.github/scripts/enhanced-pr-comment.js`
(verbatim copy of the top-level one). -/
def getRiskLevel (critical high : Int) : String :=
  if critical > 0 then "CRITICAL"
  else if high > 5 then "HIGH"
  else if high > 0 then "MODERATE"
  else "LOW"

end Hardening.EPC

namespace Hardening.Advanced

/-- The inline risk computation of `generateComprehensiveSecurityOverview`
in `.github/scripts/advanced-pr-enhancements.js`:
`totalCritical > 0 ? 'CRITICAL' : totalHigh > 0 ? 'HIGH' : 'LOW'`. -/
def comprehensiveRiskLevel (totalCritical totalHigh : Int) : String :=
  if totalCritical > 0 then "CRITICAL"
  else if totalHigh > 0 then "HIGH"
  else "LOW"

end Hardening.Advanced

namespace Hardening

/-- C1 counterexample: at `critical = 0, high = 1` (where `1 ≤ 5`), the
inline risk computation of `generateComprehensiveSecurityOverview` returns
`HIGH`, while the claimed characterisation demands `MODERATE` there — as
the two `getRiskLevel` copies indeed produce. -/
theorem c1_counterexample :
    Advanced.comprehensiveRiskLevel 0 1 = "HIGH" ∧ (1 : Int) ≤ 5 ∧
      getRiskLevel 0 1 = "MODERATE" := by
  decide

/-- C1 (amended): both `getRiskLevel` copies satisfy the claimed
characterisation for all non-negative counts, and the inline computation in
`generateComprehensiveSecurityOverview` satisfies the degenerate variant:
`CRITICAL` iff `critical > 0`, `HIGH` iff `critical = 0` and `high > 0`
(the threshold `5` is dropped there), `LOW` iff both are zero, and it never
returns `MODERATE`. -/
theorem c1_classifier_characterizations :
    ∀ c h : Int, 0 ≤ c → 0 ≤ h →
      ((getRiskLevel c h = "CRITICAL" ↔ 0 < c) ∧
        (getRiskLevel c h = "HIGH" ↔ c = 0 ∧ 5 < h) ∧
        (getRiskLevel c h = "MODERATE" ↔ c = 0 ∧ 0 < h ∧ h ≤ 5) ∧
        (getRiskLevel c h = "LOW" ↔ c = 0 ∧ h = 0)) ∧
      ((EPC.getRiskLevel c h = "CRITICAL" ↔ 0 < c) ∧
        (EPC.getRiskLevel c h = "HIGH" ↔ c = 0 ∧ 5 < h) ∧
        (EPC.getRiskLevel c h = "MODERATE" ↔ c = 0 ∧ 0 < h ∧ h ≤ 5) ∧
        (EPC.getRiskLevel c h = "LOW" ↔ c = 0 ∧ h = 0)) ∧
      ((Advanced.comprehensiveRiskLevel c h = "CRITICAL" ↔ 0 < c) ∧
        (Advanced.comprehensiveRiskLevel c h = "HIGH" ↔ c = 0 ∧ 0 < h) ∧
        (Advanced.comprehensiveRiskLevel c h ≠ "MODERATE") ∧
        (Advanced.comprehensiveRiskLevel c h = "LOW" ↔ c = 0 ∧ h = 0)) := by
  intro c h hc hh
  unfold getRiskLevel EPC.getRiskLevel Advanced.comprehensiveRiskLevel
  split_ifs <;> simp_all <;> omega

/-- Closed instance of `c1_classifier_characterizations` at `c = 0, h = 3`. -/
theorem c1_classifier_characterizations_witness :
    getRiskLevel 0 3 = "MODERATE" ∧ Advanced.comprehensiveRiskLevel 0 3 = "HIGH" := by
  have h := c1_classifier_characterizations 0 3 (by decide) (by decide)
  exact ⟨(h.1.2.2.1).2 (by decide), (h.2.2.2.1).2 (by decide)⟩

end Hardening

namespace Hardening.Badges

/-- Characters that JavaScript `encodeURIComponent` leaves unescaped:
letters, digits and `- _ . ! ~ * ' ( )`. -/
def uriUnescaped (c : Char) : Bool :=
  c.isAlphanum || c = '-' || c = '_' || c = '.' || c = '!' || c = '~' ||
    c = '*' || c.toNat = 39 || c = '(' || c = ')'

/-- UTF-8 bytes of a code point. -/
def utf8Bytes (n : Nat) : List Nat :=
  if n < 128 then [n]
  else if n < 2048 then [192 + n / 64, 128 + n % 64]
  else if n < 65536 then [224 + n / 4096, 128 + (n / 64) % 64, 128 + n % 64]
  else [240 + n / 262144, 128 + (n / 4096) % 64, 128 + (n / 64) % 64, 128 + n % 64]

/-- Upper-case hexadecimal digit, as produced by `encodeURIComponent`. -/
def hexUpper (n : Nat) : Char :=
  if n < 10 then Char.ofNat (48 + n) else Char.ofNat (55 + n)

/-- Percent-escape of one byte. -/
def pctByte (b : Nat) : List Char :=
  ['%', hexUpper (b / 16), hexUpper (b % 16)]

/-- Encoding of one character under `encodeURIComponent`. -/
def encChar (c : Char) : List Char :=
  if uriUnescaped c then [c] else ((utf8Bytes c.toNat).map pctByte).flatten

/-- JavaScript `encodeURIComponent`. -/
def encodeURIComponent (s : String) : String :=
  ⟨(s.data.map encChar).flatten⟩

/-- `generateBadge(label, message, color, style)` of
`.github/scripts/security-badges.js` (every use relevant here passes the
default style `'flat'`). -/
def generateBadge (label message color style : String) : String :=
  "![" ++ label ++ "](https://img.shields.io/badge/" ++
    encodeURIComponent label ++ "-" ++ encodeURIComponent message ++ "-" ++
    color ++ "?style=" ++ style ++ ")"

/-- `generateRiskBadge(critical, high, medium, low)` of
`.github/scripts/security-badges.js`. -/
def generateRiskBadge (critical high medium low : Int) : String :=
  let lce : String × String × String :=
    if critical > 0 then ("CRITICAL", "red", "🚨")
    else if high > 5 then ("HIGH", "orange", "⚠️")
    else if high > 0 then ("MODERATE", "yellow", "🟡")
    else if medium > 0 then ("LOW", "green", "🔵")
    else ("EXCELLENT", "brightgreen", "✅")
  lce.2.2 ++ " " ++ generateBadge "Security Risk" lce.1 lce.2.1 "flat"

/-- Result record of `generateSecurityScore`. -/
structure SecurityScore where
  score : Int
  grade : String
  badge : String
deriving Repr, DecidableEq

/-- `generateSecurityScore(vulnerabilities)` of
`.github/scripts/security-badges.js`; the four counts are the
destructured `critical/high/medium/low` fields. -/
def generateSecurityScore (critical high medium low : Int) : SecurityScore :=
  let criticalWeight : Int := 10
  let highWeight : Int := 5
  let mediumWeight : Int := 2
  let lowWeight : Int := 1
  let penalty := critical * criticalWeight + high * highWeight +
    medium * mediumWeight + low * lowWeight
  let score := max 0 (100 - penalty)
  let gc : String × String :=
    if score ≥ 90 then ("A+", "brightgreen")
    else if score ≥ 80 then ("A", "green")
    else if score ≥ 70 then ("B", "yellowgreen")
    else if score ≥ 60 then ("C", "yellow")
    else if score ≥ 50 then ("D", "orange")
    else ("F", "red")
  { score := score, grade := gc.1,
    badge := generateBadge "Security Score"
      (toString score ++ "/100 (" ++ gc.1 ++ ")") gc.2 "flat" }

/-- `Math.round`: round half towards positive infinity. -/
def jsRound (q : ℚ) : Int := ⌊q + 1 / 2⌋

/-- JavaScript `s.repeat(n)`: `none` models the `RangeError` thrown for a
negative count. -/
def jsRepeat (s : String) (n : Int) : Option String :=
  if n < 0 then none
  else some (String.join (List.replicate n.toNat s))

/-- `generateProgressBar(current, total, width)` of
`.github/scripts/security-badges.js` (default `width = 20`).  The
floating-point division `current / total` is modelled over `ℚ`;
`none` models a thrown `RangeError`. -/
def generateProgressBar (current total width : Int) : Option String :=
  if total = 0 then
    (jsRepeat "▓" width).map (fun b => b ++ " (0/0)")
  else
    let percentage := jsRound ((current : ℚ) / (total : ℚ) * 100)
    let filled := jsRound ((current : ℚ) / (total : ℚ) * (width : ℚ))
    let emptyCount := width - filled
    match jsRepeat "▓" filled, jsRepeat "░" emptyCount with
    | some a, some b =>
      some (a ++ b ++ " " ++ toString percentage ++ "% (" ++
        toString current ++ "/" ++ toString total ++ ")")
    | _, _ => none

end Hardening.Badges

namespace Hardening

/-- C2 counterexample: with `critical = high = 0` fixed, changing the medium
count from `0` to `1` changes the risk badge produced by
`generateRiskBadge` (`LOW`/green versus `EXCELLENT`/brightgreen), so the
badge is not a function of the critical and high counts only. -/
theorem c2_counterexample :
    Badges.generateRiskBadge 0 0 1 0 ≠ Badges.generateRiskBadge 0 0 0 0 := by
  decide

/-- C2 (amended): `generateRiskBadge` never depends on the low count, and it
is independent of the medium count whenever `critical > 0` or `high > 0`;
only at `critical = high = 0` does the medium count select between the
`LOW` and `EXCELLENT` badges (the `getRiskLevel` classifiers take only the
critical and high counts, so for them the claim is immediate). -/
theorem c2_badge_count_dependence :
    (∀ c h m l₁ l₂ : Int,
        Badges.generateRiskBadge c h m l₁ = Badges.generateRiskBadge c h m l₂) ∧
    (∀ c h m₁ m₂ l₁ l₂ : Int, 0 < c ∨ 0 < h →
        Badges.generateRiskBadge c h m₁ l₁ = Badges.generateRiskBadge c h m₂ l₂) ∧
    (∀ m l : Int, 0 < m →
        Badges.generateRiskBadge 0 0 m l = Badges.generateRiskBadge 0 0 1 0) := by
  refine ⟨fun c h m l₁ l₂ => rfl, fun c h m₁ m₂ l₁ l₂ hch => ?_, fun m l hm => ?_⟩
  · unfold Badges.generateRiskBadge
    split_ifs <;> first | rfl | omega
  · unfold Badges.generateRiskBadge
    split_ifs <;> first | rfl | omega

/-- Closed instance of `c2_badge_count_dependence`: with `critical = 1` the
badge ignores the medium and low counts. -/
theorem c2_badge_count_dependence_witness :
    Badges.generateRiskBadge 1 0 2 3 = Badges.generateRiskBadge 1 0 5 7 := by
  have h := c2_badge_count_dependence.2.1 1 0 2 5 3 7 (Or.inl (by decide))
  have h' := c2_badge_count_dependence.1 1 0 2 3 7
  exact h'.trans h

/-- C9: the security score is `max 0 (100 − (10·critical + 5·high +
2·medium + low))`, always lies in `[0, 100]`, and is non-increasing in each
individual count. -/
theorem c9_security_score :
    (∀ c h m l : Nat,
        (Badges.generateSecurityScore c h m l).score =
          max 0 (100 - (10 * c + 5 * h + 2 * m + l : Int))) ∧
    (∀ c h m l : Nat,
        0 ≤ (Badges.generateSecurityScore c h m l).score ∧
          (Badges.generateSecurityScore c h m l).score ≤ 100) ∧
    (∀ c c' h m l : Nat, c ≤ c' →
        (Badges.generateSecurityScore c' h m l).score ≤
          (Badges.generateSecurityScore c h m l).score) ∧
    (∀ c h h' m l : Nat, h ≤ h' →
        (Badges.generateSecurityScore c h' m l).score ≤
          (Badges.generateSecurityScore c h m l).score) ∧
    (∀ c h m m' l : Nat, m ≤ m' →
        (Badges.generateSecurityScore c h m' l).score ≤
          (Badges.generateSecurityScore c h m l).score) ∧
    (∀ c h m l l' : Nat, l ≤ l' →
        (Badges.generateSecurityScore c h m l').score ≤
          (Badges.generateSecurityScore c h m l).score) := by
  refine ⟨fun c h m l => ?_, fun c h m l => ?_, fun c c' h m l hc => ?_,
    fun c h h' m l hh => ?_, fun c h m m' l hm => ?_, fun c h m l l' hl => ?_⟩ <;>
    simp only [Badges.generateSecurityScore] <;> omega

/-- Closed instance of `c9_security_score`: the score at (1,2,3,4) is at
most the score at (1,2,3,0). -/
theorem c9_security_score_witness :
    (Badges.generateSecurityScore 1 2 3 4).score ≤
      (Badges.generateSecurityScore 1 2 3 0).score :=
  c9_security_score.2.2.2.2.2 1 2 3 0 4 (by decide)

end Hardening

namespace Hardening

/-- C10 counterexample: for `current = 2, total = 1` (default width 20) the
computed filled count is 40, so the empty count is `-20` and
`'░'.repeat(-20)` throws a `RangeError` — the function is not total on all
non-negative `current` with `total > 0`. -/
theorem c10_counterexample : Badges.generateProgressBar 2 1 20 = none := by
  have h40 : Badges.jsRound (((2 : Int) : ℚ) / ((1 : Int) : ℚ) * ((20 : Int) : ℚ)) = 40 := by
    unfold Badges.jsRound
    rw [Int.floor_eq_iff]
    norm_num
  simp only [Badges.generateProgressBar, h40, Badges.jsRepeat]
  norm_num

/-- C10 (amended): when `total = 0` the function returns the fully-filled
bar ending in `" (0/0)"` without performing the division, and for
`total > 0` it returns a defined bar string provided `0 ≤ current ≤ total`
(for `current > total` the empty count can go negative and the repeat call
throws, as the counterexample shows). -/
theorem c10_progress_bar_amended :
    (∀ current width : Int, 0 ≤ width →
        Badges.generateProgressBar current 0 width =
          some (String.join (List.replicate width.toNat "▓") ++ " (0/0)")) ∧
    (∀ current total width : Int, 0 < total → 0 ≤ current → current ≤ total →
        0 ≤ width →
        ∃ s, Badges.generateProgressBar current total width = some s) := by
  constructor
  · intro current width hw
    unfold Badges.generateProgressBar Badges.jsRepeat
    rw [if_pos rfl, if_neg (show ¬ width < 0 by omega)]
    rfl
  · intro current total width ht hc hct hw
    have hq0 : (0 : ℚ) ≤ (current : ℚ) / (total : ℚ) := by positivity
    have hq1 : (current : ℚ) / (total : ℚ) ≤ 1 := by
      rw [div_le_one (by exact_mod_cast ht)]
      exact_mod_cast hct
    have hx0 : (0 : ℚ) ≤ (current : ℚ) / (total : ℚ) * (width : ℚ) :=
      mul_nonneg hq0 (by exact_mod_cast hw)
    have hxw : (current : ℚ) / (total : ℚ) * (width : ℚ) ≤ (width : ℚ) := by
      calc (current : ℚ) / (total : ℚ) * (width : ℚ)
          ≤ 1 * (width : ℚ) :=
            mul_le_mul_of_nonneg_right hq1 (by exact_mod_cast hw)
        _ = (width : ℚ) := one_mul _
    have hf0 : 0 ≤ Badges.jsRound ((current : ℚ) / (total : ℚ) * (width : ℚ)) := by
      unfold Badges.jsRound
      have : (0 : ℚ) ≤ (current : ℚ) / (total : ℚ) * (width : ℚ) + 1 / 2 := by
        linarith
      exact Int.le_floor.2 (by exact_mod_cast this)
    have hfw : Badges.jsRound ((current : ℚ) / (total : ℚ) * (width : ℚ)) ≤ width := by
      unfold Badges.jsRound
      have hlt : Int.floor ((current : ℚ) / (total : ℚ) * (width : ℚ) + 1 / 2) <
          width + 1 := by
        apply Int.floor_lt.2
        push_cast
        linarith
      omega
    simp only [Badges.generateProgressBar, Badges.jsRepeat,
      if_neg (show ¬ total = 0 by omega),
      if_neg (show ¬ Badges.jsRound ((current : ℚ) / (total : ℚ) * (width : ℚ)) < 0 by omega),
      if_neg (show ¬ width - Badges.jsRound ((current : ℚ) / (total : ℚ) * (width : ℚ)) < 0 by omega)]
    exact ⟨_, rfl⟩

/-- Closed instance of `c10_progress_bar_amended` at `current = 1,
total = 2, width = 20`. -/
theorem c10_progress_bar_amended_witness :
    ∃ s, Badges.generateProgressBar 1 2 20 = some s :=
  c10_progress_bar_amended.2 1 2 20 (by decide) (by decide) (by decide) (by decide)

end Hardening

namespace Hardening

/-- JavaScript `Array.prototype.join('\n')`. -/
def joinLines : List String → String
  | [] => ""
  | [x] => x
  | x :: xs => x ++ "\n" ++ joinLines xs

/-- The `vulnerabilities` record `{critical, high, medium, low}` used by
`.github/scripts/enhanced-pr-comment.js`. -/
structure Vulns where
  critical : Int
  high : Int
  medium : Int
  low : Int
deriving Repr, DecidableEq

/-- The critical-urgency action line of the top-level script. -/
def urgentLine (critical : Int) : String :=
  "🚨 **URGENT**: " ++ toString critical ++
    " critical vulnerabilities need immediate attention"

/-- The high-urgency action line of the top-level script. -/
def highSevLine (high : Int) : String :=
  "⚠️ **HIGH**: " ++ toString high ++
    " high-severity vulnerabilities to address within 24h"

/-- The medium-priority action line of the top-level script. -/
def mediumLine (medium : Int) : String :=
  "🟡 **MEDIUM**: " ++ toString medium ++ " medium issues for next sprint"

/-- The affirmative "no issues" line (identical in both scripts). -/
def greatJobLine : String :=
  "✅ **GREAT JOB**: No high-priority security issues found!"

/-- The `items` array built by `generateActionItems` of the top-level
enhanced PR comment script (each `push` in source order). -/
def generateActionItemsList (critical high medium : Int) : List String :=
  (if critical > 0 then [urgentLine critical] else []) ++
    (if high > 0 then [highSevLine high] else []) ++
    (if medium > 0 then [mediumLine medium] else []) ++
    (if critical = 0 ∧ high = 0 ∧ medium = 0 then [greatJobLine] else [])

/-- `generateActionItems(critical, high, medium)` of the top-level script:
the pushed items joined with newlines. -/
def generateActionItems (critical high medium : Int) : String :=
  joinLines (generateActionItemsList critical high medium)

end Hardening

namespace Hardening.EPC

/-- The critical-urgency action line of `enhanced-pr-comment.js`
(wording: "issues" instead of "vulnerabilities"). -/
def urgentLine (critical : Int) : String :=
  "🚨 **URGENT**: " ++ toString critical ++
    " critical issues need immediate attention"

/-- The high-urgency action line of `enhanced-pr-comment.js`. -/
def highSevLine (high : Int) : String :=
  "⚠️ **HIGH**: " ++ toString high ++
    " high-severity issues to address within 24h"

/-- The medium-priority action line of `enhanced-pr-comment.js`. -/
def mediumLine (medium : Int) : String :=
  "🟡 **MEDIUM**: " ++ toString medium ++ " medium issues for next sprint"

/-- The affirmative "no issues" line of `enhanced-pr-comment.js`. -/
def greatJobLine : String :=
  "✅ **GREAT JOB**: No high-priority security issues found!"

/-- The `items` array built by `generateActionItems(vulnerabilities)` of
`enhanced-pr-comment.js`. -/
def generateActionItemsList (v : Vulns) : List String :=
  (if v.critical > 0 then [urgentLine v.critical] else []) ++
    (if v.high > 0 then [highSevLine v.high] else []) ++
    (if v.medium > 0 then [mediumLine v.medium] else []) ++
    (if v.critical = 0 ∧ v.high = 0 ∧ v.medium = 0 then [greatJobLine] else [])

/-- `generateActionItems(vulnerabilities)` of `enhanced-pr-comment.js`:
`items.length > 0 ? items.join('\n') : ''`. -/
def generateActionItems (v : Vulns) : String :=
  let items := generateActionItemsList v
  if items.length > 0 then joinLines items else ""

end Hardening.EPC

namespace Hardening

/-- The head character of `a ++ b` is that of `a` when `a` is non-empty. -/
theorem headChar_append (a b : String) (h : a.data ≠ []) :
    (a ++ b).data.head? = a.data.head? := by
  rw [String.data_append]
  cases hd : a.data with
  | nil => exact absurd hd h
  | cons c t => simp

/-- Strings with different head characters are different. -/
theorem string_ne_of_head {s t : String}
    (h : s.data.head? ≠ t.data.head?) : s ≠ t :=
  fun e => h (by rw [e])

theorem urgentLine_head (c : Int) : (urgentLine c).data.head? = some '🚨' := by
  have h1 : ("🚨 **URGENT**: " : String).data ≠ [] := by decide
  have h2 : (("🚨 **URGENT**: " : String) ++ toString c).data ≠ [] := by
    rw [String.data_append]
    intro hh
    exact h1 (List.append_eq_nil.mp hh).1
  unfold urgentLine
  rw [headChar_append _ _ h2, headChar_append _ _ h1]
  decide

theorem highSevLine_head (h : Int) : (highSevLine h).data.head? = some '⚠' := by
  have h1 : ("⚠️ **HIGH**: " : String).data ≠ [] := by decide
  have h2 : (("⚠️ **HIGH**: " : String) ++ toString h).data ≠ [] := by
    rw [String.data_append]
    intro hh
    exact h1 (List.append_eq_nil.mp hh).1
  unfold highSevLine
  rw [headChar_append _ _ h2, headChar_append _ _ h1]
  decide

theorem mediumLine_head (m : Int) : (mediumLine m).data.head? = some '🟡' := by
  have h1 : ("🟡 **MEDIUM**: " : String).data ≠ [] := by decide
  have h2 : (("🟡 **MEDIUM**: " : String) ++ toString m).data ≠ [] := by
    rw [String.data_append]
    intro hh
    exact h1 (List.append_eq_nil.mp hh).1
  unfold mediumLine
  rw [headChar_append _ _ h2, headChar_append _ _ h1]
  decide

theorem epc_urgentLine_head (c : Int) :
    (EPC.urgentLine c).data.head? = some '🚨' := by
  have h1 : ("🚨 **URGENT**: " : String).data ≠ [] := by decide
  have h2 : (("🚨 **URGENT**: " : String) ++ toString c).data ≠ [] := by
    rw [String.data_append]
    intro hh
    exact h1 (List.append_eq_nil.mp hh).1
  unfold EPC.urgentLine
  rw [headChar_append _ _ h2, headChar_append _ _ h1]
  decide

theorem epc_highSevLine_head (h : Int) :
    (EPC.highSevLine h).data.head? = some '⚠' := by
  have h1 : ("⚠️ **HIGH**: " : String).data ≠ [] := by decide
  have h2 : (("⚠️ **HIGH**: " : String) ++ toString h).data ≠ [] := by
    rw [String.data_append]
    intro hh
    exact h1 (List.append_eq_nil.mp hh).1
  unfold EPC.highSevLine
  rw [headChar_append _ _ h2, headChar_append _ _ h1]
  decide

theorem epc_mediumLine_head (m : Int) :
    (EPC.mediumLine m).data.head? = some '🟡' := by
  have h1 : ("🟡 **MEDIUM**: " : String).data ≠ [] := by decide
  have h2 : (("🟡 **MEDIUM**: " : String) ++ toString m).data ≠ [] := by
    rw [String.data_append]
    intro hh
    exact h1 (List.append_eq_nil.mp hh).1
  unfold EPC.mediumLine
  rw [headChar_append _ _ h2, headChar_append _ _ h1]
  decide

end Hardening

namespace Hardening

/-- C8: with all three counts zero, `generateActionItems` returns exactly
the single affirmative line (which contains no newline, hence is one
line); with any count positive, the item list consists of the per-severity
lines for exactly the positive counts, in the order critical, high,
medium, and never contains the affirmative line.  Both the top-level
script's copy and the `enhanced-pr-comment.js` copy are covered. -/
theorem c8_action_items :
    (generateActionItemsList 0 0 0 = [greatJobLine] ∧
      generateActionItems 0 0 0 = greatJobLine ∧
      '\n' ∉ greatJobLine.data) ∧
    (∀ c h m : Int, 0 < c ∨ 0 < h ∨ 0 < m →
      generateActionItemsList c h m =
        (if c > 0 then [urgentLine c] else []) ++
          (if h > 0 then [highSevLine h] else []) ++
          (if m > 0 then [mediumLine m] else []) ∧
      greatJobLine ∉ generateActionItemsList c h m) ∧
    (∀ low : Int,
      EPC.generateActionItemsList ⟨0, 0, 0, low⟩ = [EPC.greatJobLine] ∧
      EPC.generateActionItems ⟨0, 0, 0, low⟩ = EPC.greatJobLine ∧
      '\n' ∉ EPC.greatJobLine.data) ∧
    (∀ v : Vulns, 0 < v.critical ∨ 0 < v.high ∨ 0 < v.medium →
      EPC.generateActionItemsList v =
        (if v.critical > 0 then [EPC.urgentLine v.critical] else []) ++
          (if v.high > 0 then [EPC.highSevLine v.high] else []) ++
          (if v.medium > 0 then [EPC.mediumLine v.medium] else []) ∧
      EPC.greatJobLine ∉ EPC.generateActionItemsList v) := by
  refine ⟨⟨by decide, by decide, by decide⟩, fun c h m hpos => ?_,
    fun low => ⟨rfl, rfl, by decide⟩, fun v hpos => ?_⟩
  · have hne : ¬ (c = 0 ∧ h = 0 ∧ m = 0) := by omega
    have hne1 : greatJobLine ≠ urgentLine c :=
      string_ne_of_head (by rw [urgentLine_head]; decide)
    have hne2 : greatJobLine ≠ highSevLine h :=
      string_ne_of_head (by rw [highSevLine_head]; decide)
    have hne3 : greatJobLine ≠ mediumLine m :=
      string_ne_of_head (by rw [mediumLine_head]; decide)
    unfold generateActionItemsList
    rw [if_neg hne]
    refine ⟨by simp, ?_⟩
    intro hmem
    simp only [List.append_nil, List.mem_append] at hmem
    rcases hmem with (hmem | hmem) | hmem <;>
      [skip; skip; skip] <;>
      split at hmem <;>
      simp_all
  · have hne : ¬ (v.critical = 0 ∧ v.high = 0 ∧ v.medium = 0) := by omega
    have hne1 : EPC.greatJobLine ≠ EPC.urgentLine v.critical :=
      string_ne_of_head (by rw [epc_urgentLine_head]; decide)
    have hne2 : EPC.greatJobLine ≠ EPC.highSevLine v.high :=
      string_ne_of_head (by rw [epc_highSevLine_head]; decide)
    have hne3 : EPC.greatJobLine ≠ EPC.mediumLine v.medium :=
      string_ne_of_head (by rw [epc_mediumLine_head]; decide)
    unfold EPC.generateActionItemsList
    rw [if_neg hne]
    refine ⟨by simp, ?_⟩
    intro hmem
    simp only [List.append_nil, List.mem_append] at hmem
    rcases hmem with (hmem | hmem) | hmem <;>
      [skip; skip; skip] <;>
      split at hmem <;>
      simp_all

/-- Closed instance of `c8_action_items` at `critical = 1, high = 0,
medium = 2`. -/
theorem c8_action_items_witness :
    generateActionItemsList 1 0 2 = [urgentLine 1, mediumLine 2] ∧
      greatJobLine ∉ generateActionItemsList 1 0 2 := by
  have h := c8_action_items.2.1 1 0 2 (Or.inl (by decide))
  exact ⟨h.1.trans (by decide), h.2⟩

end Hardening

namespace Hardening

/-- One parsed tool row of the SAST summary table (the `tool` object built
by `parseSASTReport`). -/
structure SASTTool where
  name : String
  critical : Int
  high : Int
  medium : Int
  low : Int
  total : Int
  status : String
deriving Repr, DecidableEq

/-- The `data` accumulator of `parseSASTReport`. -/
structure SASTData where
  tools : List SASTTool
  totalCritical : Int
  totalHigh : Int
  totalMedium : Int
  totalLow : Int
deriving Repr, DecidableEq

/-- The recognised SAST table header (the literal part of the regex). -/
def sastHeader : List Char :=
  "| Tool | Critical | High | Medium | Low | Total | Status |".data

/-- Position of the first match of the lookahead `(?=\n\n|\n\|)` of the
table regex: the first index at which a newline is followed by a newline
or a pipe. -/
def findLookahead : List Char → Option Nat
  | '\n' :: '\n' :: _ => some 0
  | '\n' :: '|' :: _ => some 0
  | _ :: t => (findLookahead t).map (· + 1)
  | [] => none

/-- Group 1 of `reportContent.match(/\| Tool \| Critical \| High \| Medium
\| Low \| Total \| Status \|(.*?)(?=\n\n|\n\|)/s)`: JavaScript returns the
leftmost match, and the lazy group takes the fewest characters after the
header literal such that the lookahead holds.  If the lookahead never
holds after the first header occurrence it holds after no later one
either, so scanning only the first occurrence is faithful. -/
def tableCapture (text : List Char) : Option (List Char) :=
  match findSubstr sastHeader text with
  | none => none
  | some i =>
    let rest := text.drop (i + sastHeader.length)
    (findLookahead rest).map fun k => rest.take k

/-- `row.split('|').map(p => p.trim()).filter(p => p)` (empty strings are
falsy and dropped). -/
def rowParts (row : List Char) : List (List Char) :=
  ((row.splitOn '|').map trimList).filter (fun p => p ≠ [])

/-- The `tool` object built from one retained row: the row must have at
least 7 parts and its first part must not be exactly `---`. -/
def rowTool (row : List Char) : Option SASTTool :=
  match rowParts row with
  | p0 :: p1 :: p2 :: p3 :: p4 :: p5 :: p6 :: _ =>
    if p0 = "---".data then none
    else some
      { name := ⟨p0⟩, critical := parseIntOr0 p1, high := parseIntOr0 p2,
        medium := parseIntOr0 p3, low := parseIntOr0 p4,
        total := parseIntOr0 p5, status := ⟨p6⟩ }
  | _ => none

/-- The body of `rows.forEach` in `parseSASTReport`: rows whose first cell
contains `TOTAL` are skipped, all others are pushed and accumulated. -/
def sastStep (acc : SASTData) (row : List Char) : SASTData :=
  match rowTool row with
  | none => acc
  | some t =>
    if containsSub "TOTAL".data t.name.data then acc
    else
      { tools := acc.tools ++ [t],
        totalCritical := acc.totalCritical + t.critical,
        totalHigh := acc.totalHigh + t.high,
        totalMedium := acc.totalMedium + t.medium,
        totalLow := acc.totalLow + t.low }

/-- The initial `data` object of `parseSASTReport`. -/
def emptySAST : SASTData := ⟨[], 0, 0, 0, 0⟩

/-- `parseSASTReport(reportContent)` of the top-level enhanced PR comment
script.  Total: the JavaScript original raises no exception on any input
string. -/
def parseSASTReport (reportContent : String) : SASTData :=
  match tableCapture reportContent.data with
  | none => emptySAST
  | some body =>
    let rows := (body.splitOn '\n').filter (fun r => r.contains '|')
    rows.foldl sastStep emptySAST

/-- The `data` object of `parseContainerReport` (the `containers` array is
declared but never filled by the source). -/
structure ContainerData where
  containers : List String
  totalCritical : Int
  totalHigh : Int
  totalMedium : Int
  totalLow : Int
  scannedContainers : Int
  buildFailures : Int
deriving Repr, DecidableEq

/-- `pat.isPrefixOf l` returning the remainder after the literal. -/
def stripLit (pat l : List Char) : Option (List Char) :=
  if pat.isPrefixOf l then some (l.drop pat.length) else none

/-- A greedy `(\d+)` group followed by a literal (the literal never starts
with a digit in the patterns used, so greediness needs no backtracking):
returns the group value and the remainder after the literal. -/
def matchDigitsThen (lit l : List Char) : Option (Nat × List Char) :=
  let ds := l.takeWhile Char.isDigit
  if ds = [] then none
  else
    match stripLit lit (l.dropWhile Char.isDigit) with
    | some r => some (decValue ds, r)
    | none => none

/-- Leftmost-match scan of a position matcher, as JavaScript regex search
does. -/
def scanFirst {α : Type} (f : List Char → Option α) : List Char → Option α
  | [] => f []
  | c :: t =>
    match f (c :: t) with
    | some a => some a
    | none => scanFirst f t

/-- Match of `/\| \*\*TOTAL\*\* \| \*\*(\d+)\*\* \| \*\*(\d+)\*\* \|
\*\*(\d+)\*\* \| \*\*(\d+)\*\* \| \*\*(\d+)\*\* \|/` at one position,
returning the five digit groups. -/
def matchTotalRowAt (l : List Char) : Option (Nat × Nat × Nat × Nat × Nat) :=
  match stripLit "| **TOTAL** | **".data l with
  | none => none
  | some r1 =>
    match matchDigitsThen "** | **".data r1 with
    | none => none
    | some (g1, r2) =>
      match matchDigitsThen "** | **".data r2 with
      | none => none
      | some (g2, r3) =>
        match matchDigitsThen "** | **".data r3 with
        | none => none
        | some (g3, r4) =>
          match matchDigitsThen "** | **".data r4 with
          | none => none
          | some (g4, r5) =>
            match matchDigitsThen "** |".data r5 with
            | none => none
            | some (g5, _) => some (g1, g2, g3, g4, g5)

/-- Match of the leading part `\| Containers Scanned \| (\d+) \|` of the
scan-overview regex at one position, returning the group and the
remainder. -/
def matchScannedAt (l : List Char) : Option (Nat × List Char) :=
  match stripLit "| Containers Scanned | ".data l with
  | none => none
  | some r => matchDigitsThen " |".data r

/-- Match of the trailing part `\| Build Failures \| (\d+) \|` at one
position. -/
def matchFailuresAt (l : List Char) : Option (Nat × List Char) :=
  match stripLit "| Build Failures | ".data l with
  | none => none
  | some r => matchDigitsThen " |".data r

/-- `parseContainerReport(reportContent)` of the top-level enhanced PR
comment script.  The two-anchor regex `/\| Containers Scanned \| (\d+)
\|.*?\| Build Failures \| (\d+) \|/s` is modelled as: first occurrence of
the leading anchor, then (lazy `.*?`) first occurrence of the trailing
anchor in the remainder; as for `tableCapture`, if no trailing anchor
follows the first leading anchor none follows a later one, so this is the
leftmost JavaScript match.  Total: the original raises no exception on any
input string. -/
def parseContainerReport (reportContent : String) : ContainerData :=
  let text := reportContent.data
  let base : ContainerData := ⟨[], 0, 0, 0, 0, 0, 0⟩
  let d1 : ContainerData :=
    match scanFirst matchTotalRowAt text with
    | some (g1, g2, g3, g4, _g5) =>
      { base with totalCritical := (g1 : Int), totalHigh := (g2 : Int),
                  totalMedium := (g3 : Int), totalLow := (g4 : Int) }
    | none => base
  match scanFirst matchScannedAt text with
  | some (s, rest) =>
    match scanFirst matchFailuresAt rest with
    | some (b, _) =>
      { d1 with scannedContainers := (s : Int), buildFailures := (b : Int) }
    | none => d1
  | none => d1

end Hardening

namespace Hardening

/-- One `forEach` step preserves the aggregate invariant. -/
theorem sastStep_inv (acc : SASTData) (row : List Char)
    (h1 : acc.totalCritical = (acc.tools.map SASTTool.critical).sum)
    (h2 : acc.totalHigh = (acc.tools.map SASTTool.high).sum)
    (h3 : acc.totalMedium = (acc.tools.map SASTTool.medium).sum)
    (h4 : acc.totalLow = (acc.tools.map SASTTool.low).sum) :
    (sastStep acc row).totalCritical =
        ((sastStep acc row).tools.map SASTTool.critical).sum ∧
      (sastStep acc row).totalHigh =
        ((sastStep acc row).tools.map SASTTool.high).sum ∧
      (sastStep acc row).totalMedium =
        ((sastStep acc row).tools.map SASTTool.medium).sum ∧
      (sastStep acc row).totalLow =
        ((sastStep acc row).tools.map SASTTool.low).sum := by
  cases hrt : rowTool row with
  | none => simp only [sastStep, hrt]; exact ⟨h1, h2, h3, h4⟩
  | some t =>
    simp only [sastStep, hrt]
    split_ifs with hct
    · exact ⟨h1, h2, h3, h4⟩
    · simp [List.map_append, List.sum_append, h1, h2, h3, h4]

/-- The whole fold preserves the aggregate invariant. -/
theorem foldl_sast_inv (rows : List (List Char)) (acc : SASTData)
    (h1 : acc.totalCritical = (acc.tools.map SASTTool.critical).sum)
    (h2 : acc.totalHigh = (acc.tools.map SASTTool.high).sum)
    (h3 : acc.totalMedium = (acc.tools.map SASTTool.medium).sum)
    (h4 : acc.totalLow = (acc.tools.map SASTTool.low).sum) :
    (rows.foldl sastStep acc).totalCritical =
        ((rows.foldl sastStep acc).tools.map SASTTool.critical).sum ∧
      (rows.foldl sastStep acc).totalHigh =
        ((rows.foldl sastStep acc).tools.map SASTTool.high).sum ∧
      (rows.foldl sastStep acc).totalMedium =
        ((rows.foldl sastStep acc).tools.map SASTTool.medium).sum ∧
      (rows.foldl sastStep acc).totalLow =
        ((rows.foldl sastStep acc).tools.map SASTTool.low).sum := by
  induction rows generalizing acc with
  | nil => exact ⟨h1, h2, h3, h4⟩
  | cons r rs ih =>
    simp only [List.foldl_cons]
    have hs := sastStep_inv acc r h1 h2 h3 h4
    exact ih (sastStep acc r) hs.1 hs.2.1 hs.2.2.1 hs.2.2.2

/-- C7: for every input text, each aggregate total of the parsed SAST
report equals the sum of the corresponding per-tool count over the
retained tool entries. -/
theorem c7_aggregate_invariant (s : String) :
    (parseSASTReport s).totalCritical =
        ((parseSASTReport s).tools.map SASTTool.critical).sum ∧
      (parseSASTReport s).totalHigh =
        ((parseSASTReport s).tools.map SASTTool.high).sum ∧
      (parseSASTReport s).totalMedium =
        ((parseSASTReport s).tools.map SASTTool.medium).sum ∧
      (parseSASTReport s).totalLow =
        ((parseSASTReport s).tools.map SASTTool.low).sum := by
  unfold parseSASTReport
  cases htc : tableCapture s.data with
  | none => exact ⟨rfl, rfl, rfl, rfl⟩
  | some body => exact foldl_sast_inv _ emptySAST rfl rfl rfl rfl

/-- C5: if the table regex finds no match, `parseSASTReport` returns the
empty report; if the bolded TOTAL-row regex finds no match,
`parseContainerReport` returns empty containers and all-zero severity
counts.  Both functions are total Lean definitions evaluable on every
input string, which reflects that the JavaScript originals never throw. -/
theorem c5_no_table_empty_report :
    (∀ s : String, tableCapture s.data = none → parseSASTReport s = emptySAST) ∧
    (∀ s : String, scanFirst matchTotalRowAt s.data = none →
      (parseContainerReport s).containers = [] ∧
      (parseContainerReport s).totalCritical = 0 ∧
      (parseContainerReport s).totalHigh = 0 ∧
      (parseContainerReport s).totalMedium = 0 ∧
      (parseContainerReport s).totalLow = 0) := by
  constructor
  · intro s h
    unfold parseSASTReport
    rw [h]
  · intro s h
    simp only [parseContainerReport, h]
    cases hcs : scanFirst matchScannedAt s.data with
    | none => simp [hcs]
    | some p =>
      obtain ⟨a, rest⟩ := p
      cases hbf : scanFirst matchFailuresAt rest with
      | none => simp [hcs, hbf]
      | some q => simp [hcs, hbf]

/-- Closed instance of `c5_no_table_empty_report` on a textual input with
no tables at all. -/
theorem c5_no_table_empty_report_witness :
    parseSASTReport "no report generated" = emptySAST ∧
      (parseContainerReport "no report generated").totalCritical = 0 := by
  have h1 := c5_no_table_empty_report.1 "no report generated" (by decide)
  have h2 := c5_no_table_empty_report.2 "no report generated" (by decide)
  exact ⟨h1, h2.2.1⟩

/-- C6: in every retained row, a numeric cell on which `parseInt` yields
`NaN` contributes `0` to the corresponding field of the tool record (the
parse itself always succeeds: the model is total). -/
theorem c6_unparseable_cell_zero :
    ∀ (row : List Char) (t : SASTTool) (p0 p1 p2 p3 p4 p5 p6 : List Char)
      (rest : List (List Char)),
      rowParts row = p0 :: p1 :: p2 :: p3 :: p4 :: p5 :: p6 :: rest →
      rowTool row = some t →
      (jsParseInt p1 = none → t.critical = 0) ∧
        (jsParseInt p2 = none → t.high = 0) ∧
        (jsParseInt p3 = none → t.medium = 0) ∧
        (jsParseInt p4 = none → t.low = 0) ∧
        (jsParseInt p5 = none → t.total = 0) := by
  intro row t p0 p1 p2 p3 p4 p5 p6 rest hp hr
  simp only [rowTool, hp] at hr
  split_ifs at hr
  injection hr with hr
  subst hr
  refine ⟨fun h => ?_, fun h => ?_, fun h => ?_, fun h => ?_, fun h => ?_⟩ <;>
    simp [parseIntOr0, h]

/-- Closed instance of `c6_unparseable_cell_zero` on a row whose critical
cell is the non-numeric `abc`. -/
theorem c6_unparseable_cell_zero_witness :
    (({ name := "ToolX", critical := 0, high := 2, medium := 3, low := 4,
        total := 9, status := "ok" } : SASTTool).critical) = 0 :=
  (c6_unparseable_cell_zero "| ToolX | abc | 2 | 3 | 4 | 9 | ok |".data
    _ "ToolX".data "abc".data "2".data "3".data "4".data "9".data "ok".data
    [] (by decide) (by decide)).1 (by decide)

/-- The concrete round-trip input of the specification: the recognised
header followed by two well-formed data rows. -/
def specRoundTripTable : String :=
  "| Tool | Critical | High | Medium | Low | Total | Status |\n| CodeQL | 0 | 0 | 0 | 0 | 0 | success |\n| Bandit | 2 | 6 | 14 | 0 | 22 | success |"

/-- The same table with each data row indented by one space and the table
terminated by a blank line: a layout on which the capture group is
non-empty and the parse recovers the counts. -/
def indentedRoundTripTable : String :=
  "| Tool | Critical | High | Medium | Low | Total | Status |\n | CodeQL | 0 | 0 | 0 | 0 | 0 | success |\n | Bandit | 2 | 6 | 14 | 0 | 22 | success |\n\n"

/-- C4 (code bug): on the specification's own round-trip example the lazy
capture group matches the empty string — the lookahead `\n\|` fires at the
newline that starts the first data row — so `parseSASTReport` retains no
tool and returns all-zero counts instead of recovering the counts; with
the data rows indented so that they do not start a line with `|`, the same
parser does recover them, which shows the regex, not the row handling, is
at fault. -/
theorem c4_parse_drops_standard_table :
    (tableCapture specRoundTripTable.data = some [] ∧
      parseSASTReport specRoundTripTable = emptySAST) ∧
      parseSASTReport indentedRoundTripTable =
        ⟨[⟨"CodeQL", 0, 0, 0, 0, 0, "success"⟩,
          ⟨"Bandit", 2, 6, 14, 0, 22, "success"⟩], 2, 6, 14, 0⟩ := by
  refine ⟨⟨?_, ?_⟩, ?_⟩ <;> decide

end Hardening

namespace Hardening

/-- `getRiskBadge(riskLevel)` of the top-level script: the object lookup
with the `UNKNOWN` fallback. -/
def getRiskBadge (riskLevel : String) : String :=
  if riskLevel = "CRITICAL" then
    "![Critical](https://img.shields.io/badge/Risk-CRITICAL-red)"
  else if riskLevel = "HIGH" then
    "![High](https://img.shields.io/badge/Risk-HIGH-orange)"
  else if riskLevel = "MODERATE" then
    "![Moderate](https://img.shields.io/badge/Risk-MODERATE-yellow)"
  else if riskLevel = "LOW" then
    "![Low](https://img.shields.io/badge/Risk-LOW-green)"
  else
    "![Unknown](https://img.shields.io/badge/Risk-UNKNOWN-gray)"

/-- The part of the `generateEnhancedSASTComment` template before the
`${new Date().toLocaleString()}` interpolation (the clock call is the only
impure expression of the template, so the whole template is this part,
then the clock string, then `sastCommentTail`). -/
def sastCommentHead (sastData : SASTData)
    (runId repoOwner repoName : String) : String :=
  let totalCritical := sastData.totalCritical
  let totalHigh := sastData.totalHigh
  let totalMedium := sastData.totalMedium
  let totalLow := sastData.totalLow
  let totalVulns := totalCritical + totalHigh + totalMedium + totalLow
  let riskLevel := getRiskLevel totalCritical totalHigh
  let riskEmoji :=
    if totalCritical > 0 then "🚨" else if totalHigh > 0 then "⚠️" else "✅"
  let toolRows := joinLines (sastData.tools.map fun t =>
    "| " ++ t.name ++ " | " ++ toString t.critical ++ " | " ++
      toString t.high ++ " | " ++ toString t.medium ++ " | " ++
      toString t.low ++ " | " ++ t.status ++ " |")
  let critSec :=
    if totalCritical > 0 then
      "\n#### 🚨 Critical Issues (" ++ toString totalCritical ++
        ")\n- Require immediate attention\n- Block deployment until resolved\n- [Download detailed reports](https://github.com/" ++
        repoOwner ++ "/" ++ repoName ++ "/actions/runs/" ++ runId ++
        "#artifacts)\n"
    else ""
  let highSec :=
    if totalHigh > 0 then
      "\n#### ⚠️ High Priority Issues (" ++ toString totalHigh ++
        ")\n- Address within 24 hours\n- Review during next development cycle\n"
    else ""
  let zeroSec :=
    if totalVulns = 0 then
      "\n#### ✅ No Security Issues Found\nGreat work! All SAST tools passed without detecting security vulnerabilities.\n"
    else ""
  "## 🔍 SAST Security Analysis " ++ riskEmoji ++
    "\n\n### 📊 Quick Summary\n" ++ getRiskBadge riskLevel ++
    " **Risk Level: " ++ riskLevel ++
    "**\n\n| 🚨 Critical | ⚠️ High | 🟡 Medium | 🔵 Low | 📊 Total |\n|-------------|---------|-----------|---------|----------|\n| **" ++
    toString totalCritical ++ "** | **" ++ toString totalHigh ++
    "** | **" ++ toString totalMedium ++ "** | **" ++ toString totalLow ++
    "** | **" ++ toString totalVulns ++ "** |\n\n" ++
    generateActionItems totalCritical totalHigh totalMedium ++
    "\n\n### 📥 Quick Access\n- 📋 **[Download All SAST Reports](https://github.com/" ++
    repoOwner ++ "/" ++ repoName ++ "/actions/runs/" ++ runId ++
    "#artifacts)**\n- 🔍 **[View in GitHub Security](https://github.com/" ++
    repoOwner ++ "/" ++ repoName ++
    "/security/code-scanning)**\n- ⚙️ **[Configure Dependabot](https://github.com/" ++
    repoOwner ++ "/" ++ repoName ++
    "/settings/security_analysis)**\n\n<details>\n<summary>🛠️ <strong>Tool Results</strong> (" ++
    toString sastData.tools.length ++
    " tools ran)</summary>\n\n| Tool | Critical | High | Medium | Low | Status |\n|------|----------|------|--------|-----|--------|\n" ++
    toolRows ++
    "\n\n</details>\n\n<details>\n<summary>🚨 <strong>Priority Findings</strong></summary>\n\n" ++
    critSec ++ "\n\n" ++ highSec ++ "\n\n" ++ zeroSec ++
    "\n\n</details>\n\n---\n*Generated: "

/-- The part of the `generateEnhancedSASTComment` template after the
timestamp interpolation. -/
def sastCommentTail (runId repoOwner repoName : String) : String :=
  " | [View Workflow](https://github.com/" ++ repoOwner ++ "/" ++
    repoName ++ "/actions/runs/" ++ runId ++ ")*"

/-- `generateEnhancedSASTComment(sastData, runId, repoOwner, repoName)` of
the top-level script, with the `new Date().toLocaleString()` call
modelled as the explicit input `now`. -/
def generateEnhancedSASTComment (sastData : SASTData)
    (runId repoOwner repoName now : String) : String :=
  sastCommentHead sastData runId repoOwner repoName ++ now ++
    sastCommentTail runId repoOwner repoName

end Hardening

namespace Hardening.EPC

/-- A tool entry of the `reportData` consumed by
`generateSASTComment` of `enhanced-pr-comment.js`. -/
structure EPCTool where
  name : String
  vulnerabilities : Vulns
  status : String
deriving Repr, DecidableEq

/-- The `reportData` argument of `generateSASTComment`. -/
structure SASTReportData where
  tools : List EPCTool
  vulnerabilities : Vulns
deriving Repr, DecidableEq

/-- The `repoInfo` argument `{owner, repo}`. -/
structure RepoInfo where
  owner : String
  repo : String
deriving Repr, DecidableEq

/-- `getRiskEmoji(riskLevel)` of `enhanced-pr-comment.js`. -/
def getRiskEmoji (riskLevel : String) : String :=
  if riskLevel = "CRITICAL" then "🚨"
  else if riskLevel = "HIGH" then "⚠️"
  else if riskLevel = "MODERATE" then "🟡"
  else if riskLevel = "LOW" then "✅"
  else "📊"

/-- `getRiskBadge(riskLevel)` of `enhanced-pr-comment.js` (the `switch`
with the `UNKNOWN` default). -/
def getRiskBadge (riskLevel : String) : String :=
  if riskLevel = "CRITICAL" then
    "![Critical](https://img.shields.io/badge/Risk-CRITICAL-red)"
  else if riskLevel = "HIGH" then
    "![High](https://img.shields.io/badge/Risk-HIGH-orange)"
  else if riskLevel = "MODERATE" then
    "![Moderate](https://img.shields.io/badge/Risk-MODERATE-yellow)"
  else if riskLevel = "LOW" then
    "![Low](https://img.shields.io/badge/Risk-LOW-green)"
  else
    "![Unknown](https://img.shields.io/badge/Risk-UNKNOWN-gray)"

/-- The part of the `generateSASTComment` template of
`enhanced-pr-comment.js` before the timestamp interpolation. -/
def sastCommentHead (reportData : SASTReportData) (runId : String)
    (repoInfo : RepoInfo) : String :=
  let v := reportData.vulnerabilities
  let owner := repoInfo.owner
  let repo := repoInfo.repo
  let totalVulns := v.critical + v.high + v.medium + v.low
  let riskLevel := getRiskLevel v.critical v.high
  let riskEmoji := getRiskEmoji riskLevel
  let toolRows := joinLines (reportData.tools.map fun t =>
    "| " ++ t.name ++ " | " ++ toString t.vulnerabilities.critical ++
      " | " ++ toString t.vulnerabilities.high ++ " | " ++
      toString t.vulnerabilities.medium ++ " | " ++
      toString t.vulnerabilities.low ++ " | " ++ t.status ++ " |")
  let critSec :=
    if v.critical > 0 then
      "\n#### 🚨 Critical Issues (" ++ toString v.critical ++
        ")\n- Require immediate attention\n- Block deployment until resolved\n- [Download detailed reports](https://github.com/" ++
        owner ++ "/" ++ repo ++ "/actions/runs/" ++ runId ++
        "#artifacts)\n"
    else ""
  let highSec :=
    if v.high > 0 then
      "\n#### ⚠️ High Priority Issues (" ++ toString v.high ++
        ")\n- Address within 24 hours\n- Review during next development cycle\n"
    else ""
  let zeroSec :=
    if totalVulns = 0 then
      "\n#### ✅ No Security Issues Found\nGreat work! All SAST tools passed without detecting security vulnerabilities.\n"
    else ""
  "## 🔍 SAST Security Analysis " ++ riskEmoji ++
    "\n\n### 📊 Quick Summary\n" ++ getRiskBadge riskLevel ++
    " **Risk Level: " ++ riskLevel ++
    "**\n\n| 🚨 Critical | ⚠️ High | 🟡 Medium | 🔵 Low | 📊 Total |\n|-------------|---------|-----------|---------|----------|\n| **" ++
    toString v.critical ++ "** | **" ++ toString v.high ++
    "** | **" ++ toString v.medium ++ "** | **" ++ toString v.low ++
    "** | **" ++ toString totalVulns ++ "** |\n\n" ++
    generateActionItems v ++
    "\n\n### 📥 Quick Access\n- 📋 **[Download All SAST Reports](https://github.com/" ++
    owner ++ "/" ++ repo ++ "/actions/runs/" ++ runId ++
    "#artifacts)**\n- 🔍 **[View in GitHub Security](https://github.com/" ++
    owner ++ "/" ++ repo ++
    "/security/code-scanning)**\n- ⚙️ **[Configure Dependabot](https://github.com/" ++
    owner ++ "/" ++ repo ++
    "/settings/security_analysis)**\n\n<details>\n<summary>🛠️ <strong>Tool Results</strong> (" ++
    toString reportData.tools.length ++
    " tools ran)</summary>\n\n| Tool | Critical | High | Medium | Low | Status |\n|------|----------|------|--------|-----|--------|\n" ++
    toolRows ++
    "\n\n</details>\n\n<details>\n<summary>🚨 <strong>Priority Findings</strong></summary>\n\n" ++
    critSec ++ "\n\n" ++ highSec ++ "\n\n" ++ zeroSec ++
    "\n\n</details>\n\n---\n*Generated: "

/-- The part of the `generateSASTComment` template after the timestamp. -/
def sastCommentTail (runId : String) (repoInfo : RepoInfo) : String :=
  " | [View Workflow](https://github.com/" ++ repoInfo.owner ++ "/" ++
    repoInfo.repo ++ "/actions/runs/" ++ runId ++ ")*"

/-- `generateSASTComment(reportData, runId, repoInfo)` of
`enhanced-pr-comment.js`, with `new Date().toLocaleString()` modelled as
the explicit input `now`. -/
def generateSASTComment (reportData : SASTReportData) (runId : String)
    (repoInfo : RepoInfo) (now : String) : String :=
  sastCommentHead reportData runId repoInfo ++ now ++
    sastCommentTail runId repoInfo

end Hardening.EPC

namespace Hardening

/-- Cancellation of an identical head and tail around a middle string. -/
theorem middle_cancel (a b t₁ t₂ : String)
    (h : a ++ t₁ ++ b = a ++ t₂ ++ b) : t₁ = t₂ := by
  have hd := congrArg String.data h
  simp only [String.data_append] at hd
  exact String.ext (List.append_cancel_left (List.append_cancel_right hd))

/-- C3 counterexample: with the report data, run id and repository
coordinates all fixed, two invocations of the renderer at different clock
readings produce different Markdown strings — the output is not a function
of the stated arguments alone, because the template interpolates
`new Date().toLocaleString()`. -/
theorem c3_counterexample :
    generateEnhancedSASTComment emptySAST "12345" "huntridge-labs"
        "hardening-workflows" "1/1/2025, 12:00:00 AM" ≠
      generateEnhancedSASTComment emptySAST "12345" "huntridge-labs"
        "hardening-workflows" "1/1/2025, 12:00:01 AM" := by
  intro h
  unfold generateEnhancedSASTComment at h
  exact absurd (middle_cancel _ _ _ _ h) (by decide)

/-- C3 (amended): with the impure clock call modelled as an explicit
timestamp input, each SAST comment renderer is a pure function of its
arguments plus that timestamp, and the timestamp is its only further
dependence: for fixed report data, run id and repository coordinates, two
invocations agree exactly when the clock readings agree. -/
theorem c3_renderers_deterministic_up_to_time :
    (∀ (d : SASTData) (runId repoOwner repoName t₁ t₂ : String),
        generateEnhancedSASTComment d runId repoOwner repoName t₁ =
          generateEnhancedSASTComment d runId repoOwner repoName t₂ ↔
        t₁ = t₂) ∧
    (∀ (d : EPC.SASTReportData) (runId : String) (ri : EPC.RepoInfo)
        (t₁ t₂ : String),
        EPC.generateSASTComment d runId ri t₁ =
          EPC.generateSASTComment d runId ri t₂ ↔
        t₁ = t₂) := by
  constructor
  · intro d runId repoOwner repoName t₁ t₂
    constructor
    · intro h
      unfold generateEnhancedSASTComment at h
      exact middle_cancel _ _ _ _ h
    · intro h
      rw [h]
  · intro d runId ri t₁ t₂
    constructor
    · intro h
      unfold EPC.generateSASTComment at h
      exact middle_cancel _ _ _ _ h
    · intro h
      rw [h]

end Hardening

namespace Hardening

/-- Closed instance of `c3_renderers_deterministic_up_to_time`: equal
clock readings give equal output. -/
theorem c3_renderers_deterministic_up_to_time_witness :
    generateEnhancedSASTComment emptySAST "12345" "huntridge-labs"
        "hardening-workflows" "1/1/2025, 12:00:00 AM" =
      generateEnhancedSASTComment emptySAST "12345" "huntridge-labs"
        "hardening-workflows" "1/1/2025, 12:00:00 AM" :=
  (c3_renderers_deterministic_up_to_time.1 emptySAST "12345"
    "huntridge-labs" "hardening-workflows" "1/1/2025, 12:00:00 AM"
    "1/1/2025, 12:00:00 AM").mpr rfl

end Hardening
